import Mathlib

/-!
Verification of `src/lemmy_db/src/views/comment_view.rs`: the comment view
join/filter/sort engine.  Database tables are embedded as lists of rows,
timestamps as integers, and the diesel query chain as explicit list
processing.  Storage-side facilities that are not part of this file's source
(the SQL `hot_rank` function, the `fuzzy_search` / `ilike` text predicate,
the `limit_and_offset` pagination utility, and the interval arithmetic of
`now - 1.years()` etc.) are supplied through a `StorageEnv` parameter record.
-/

/-- SQL timestamps, embedded as integers. -/
abbrev Timestamp := Int

/-- A row of the `comment` table.  Columns follow the row type spelled out in
`join_types::BoxedCommentJoin` (src lines 176-188): id, creator_id, post_id,
parent_id, content, removed, read, published, updated, deleted, ap_id, local.
The source's `local` column is named `is_local` here because `local` is a
reserved word in Lean. -/
structure Comment where
  id : Int
  creator_id : Int
  post_id : Int
  parent_id : Option Int
  content : String
  removed : Bool
  read : Bool
  published : Timestamp
  updated : Option Timestamp
  deleted : Bool
  ap_id : String
  is_local : Bool
deriving DecidableEq, Repr

/-- The second instance of the `comment` table (`comment_alias_1`), used for
the parent-comment self join. -/
abbrev CommentAlias1 := Comment

/-- The safe projection of a `user_` row, per the safe-columns row type in
`join_types::BoxedCommentJoin` (src lines 189-204): id, name,
preferred_username, avatar, admin, banned, published, updated,
matrix_user_id, actor_id, bio, local, banner, deleted. -/
structure UserSafe where
  id : Int
  name : String
  preferred_username : Option String
  avatar : Option String
  admin : Bool
  banned : Bool
  published : Timestamp
  updated : Option Timestamp
  matrix_user_id : Option String
  actor_id : String
  bio : Option String
  is_local : Bool
  banner : Option String
  deleted : Bool
deriving DecidableEq, Repr

/-- The safe projection of the aliased user table (`user_alias_1`), i.e. the
recipient: the author of the parent comment. -/
abbrev UserSafeAlias1 := UserSafe

/-- A row of the `post` table, per `join_types::BoxedCommentJoin`
(src lines 235-255). -/
structure Post where
  id : Int
  name : String
  url : Option String
  body : Option String
  creator_id : Int
  community_id : Int
  removed : Bool
  locked : Bool
  published : Timestamp
  updated : Option Timestamp
  deleted : Bool
  nsfw : Bool
  stickied : Bool
  embed_title : Option String
  embed_description : Option String
  embed_html : Option String
  thumbnail_url : Option String
  ap_id : String
  is_local : Bool
deriving DecidableEq, Repr

/-- The safe projection of a `community` row, per
`join_types::BoxedCommentJoin` (src lines 256-272). -/
structure CommunitySafe where
  id : Int
  name : String
  title : String
  description : Option String
  category_id : Int
  creator_id : Int
  removed : Bool
  published : Timestamp
  updated : Option Timestamp
  deleted : Bool
  nsfw : Bool
  actor_id : String
  is_local : Bool
  icon : Option String
  banner : Option String
deriving DecidableEq, Repr

/-- A row of the `comment_aggregates` table (src line 273):
id, comment_id, score, upvotes, downvotes. -/
structure CommentAggregates where
  id : Int
  comment_id : Int
  score : Int
  upvotes : Int
  downvotes : Int
deriving DecidableEq, Repr

/-- A row of the `community_user_ban` table (src line 274):
id, community_id, user_id, published. -/
structure CommunityUserBan where
  id : Int
  community_id : Int
  user_id : Int
  published : Timestamp
deriving DecidableEq, Repr

/-- A row of the `community_follower` table (src line 275):
id, community_id, user_id, published, pending. -/
structure CommunityFollower where
  id : Int
  community_id : Int
  user_id : Int
  published : Timestamp
  pending : Option Bool
deriving DecidableEq, Repr

/-- A row of the `comment_saved` table (src line 276):
id, comment_id, user_id, published. -/
structure CommentSaved where
  id : Int
  comment_id : Int
  user_id : Int
  published : Timestamp
deriving DecidableEq, Repr

/-- A row of the `comment_like` table (schema: id, user_id, comment_id,
post_id, score, published); only `score` is selected by the view query. -/
structure CommentLike where
  id : Int
  user_id : Int
  comment_id : Int
  post_id : Int
  score : Int
  published : Timestamp
deriving DecidableEq, Repr

/-- The flat row tuple `CommentViewTuple` (src lines 48-60).  Components are
named after the destructuring pattern in `CommentView::read`
(src lines 71-82). -/
structure CommentViewTuple where
  comment : Comment
  creator : UserSafe
  parent_comment : Option CommentAlias1
  recipient : Option UserSafeAlias1
  post : Post
  community : CommunitySafe
  counts : CommentAggregates
  creator_banned_from_community : Option CommunityUserBan
  subscribed : Option CommunityFollower
  saved : Option CommentSaved
  my_vote : Option Int
deriving DecidableEq, Repr

/-- The output view record `CommentView` (src lines 34-46). -/
structure CommentView where
  comment : Comment
  creator : UserSafe
  recipient : Option UserSafeAlias1
  post : Post
  community : CommunitySafe
  counts : CommentAggregates
  creator_banned_from_community : Bool
  subscribed : Bool
  saved : Bool
  my_vote : Option Int
deriving DecidableEq, Repr

/-- The listing scopes used by this engine (`ListingType`; the `list` match
treats any value other than `Subscribed` and `Local` as no restriction,
src lines 600-605). -/
inductive ListingType where
  | All
  | Local
  | Subscribed
deriving DecidableEq, Repr

/-- The sort modes (`SortType`) matched in `list` (src lines 611-629). -/
inductive SortType where
  | Hot
  | Active
  | New
  | TopAll
  | TopYear
  | TopMonth
  | TopWeek
  | TopDay
deriving DecidableEq, Repr

/-- The underlying relational data visible to the fixed join topology. -/
structure Database where
  comments : List Comment
  users : List UserSafe
  posts : List Post
  communities : List CommunitySafe
  comment_aggregates : List CommentAggregates
  community_user_bans : List CommunityUserBan
  community_followers : List CommunityFollower
  comment_saveds : List CommentSaved
  comment_likes : List CommentLike
deriving DecidableEq, Repr

/-- Storage-layer facilities consumed by the engine but defined outside this
source file: the SQL `hot_rank` function, the `ilike` text predicate and the
`fuzzy_search` pattern builder, the `limit_and_offset` pagination utility,
and the execution-time clock with the interval lengths of
`1.years()/1.months()/1.weeks()/1.days()`. -/
structure StorageEnv where
  now : Timestamp
  one_year : Int
  one_month : Int
  one_week : Int
  one_day : Int
  hot_rank : Int → Timestamp → ℚ
  ilike : String → String → Bool
  fuzzy_search : String → String
  limit_and_offset : Option Int → Option Int → Int × Int

/-- The fixed multi-relation join for one primary comment row, shared
verbatim by `CommentView::read` (src lines 83-133) and
`CommentQueryBuilder::create` (src lines 431-480): inner joins to the
creator, post, community and aggregates; left joins to the parent comment
(`comment_alias_1` on `id = parent_id`), the recipient (`user_alias_1` on
`id = parent.creator_id`), the author's community ban (on community id and
the comment's `creator_id`), and the viewer-scoped follower / saved / like
rows (each on the row key and `user_id = user_id_join`).  An inner-join miss
drops the row (`none`); a left-join miss leaves the segment absent. -/
def joinCommentRow (db : Database) (user_id_join : Int) (c : Comment) :
    Option CommentViewTuple :=
  match db.users.find? (fun u => u.id == c.creator_id) with
  | none => none
  | some creator =>
    match db.posts.find? (fun p => p.id == c.post_id) with
    | none => none
    | some post =>
      match db.communities.find? (fun cm => cm.id == post.community_id) with
      | none => none
      | some community =>
        match db.comment_aggregates.find? (fun ca => ca.comment_id == c.id) with
        | none => none
        | some counts =>
          let parent_comment :=
            c.parent_id.bind (fun pid => db.comments.find? (fun p2 => p2.id == pid))
          let recipient :=
            parent_comment.bind (fun p2 => db.users.find? (fun u => u.id == p2.creator_id))
          let ban := db.community_user_bans.find?
            (fun bn => bn.community_id == community.id && bn.user_id == c.creator_id)
          let follower := db.community_followers.find?
            (fun f => f.community_id == post.community_id && f.user_id == user_id_join)
          let saved_row := db.comment_saveds.find?
            (fun s => s.comment_id == c.id && s.user_id == user_id_join)
          let my_vote := (db.comment_likes.find?
            (fun l2 => l2.comment_id == c.id && l2.user_id == user_id_join)).map
            (fun l2 => l2.score)
          some ⟨c, creator, parent_comment, recipient, post, community, counts,
                ban, follower, saved_row, my_vote⟩

/-- The row decoder closure inside `ViewToVec::to_vec` for `CommentView`
(src lines 648-659): presence of the three optional segments becomes a
boolean, the vote segment is passed through. -/
def view_of_tuple (a : CommentViewTuple) : CommentView :=
  { comment := a.comment
    creator := a.creator
    recipient := a.recipient
    post := a.post
    community := a.community
    counts := a.counts
    creator_banned_from_community := a.creator_banned_from_community.isSome
    subscribed := a.subscribed.isSome
    saved := a.saved.isSome
    my_vote := a.my_vote }

/-- `ViewToVec::to_vec` for `CommentView` (src lines 643-662). -/
def CommentView.to_vec (posts : List CommentViewTuple) : List CommentView :=
  posts.map view_of_tuple

/-- `CommentView::read` (src lines 63-147): primary-key lookup, the fixed
join, and the inline per-row decode (src lines 135-146) that discards the
parent-comment segment.  `none` embeds the storage layer's not-found error
of `.first`. -/
def CommentView.read (db : Database) (comment_id : Int)
    (my_user_id : Option Int) : Option CommentView :=
  -- The left join below will return None in this case
  let user_id_join := my_user_id.getD (-1)
  match db.comments.find? (fun c => c.id == comment_id) with
  | none => none
  | some c =>
    match joinCommentRow db user_id_join c with
    | none => none
    | some t =>
      some { comment := t.comment
             recipient := t.recipient
             post := t.post
             creator := t.creator
             community := t.community
             counts := t.counts
             creator_banned_from_community := t.creator_banned_from_community.isSome
             subscribed := t.subscribed.isSome
             saved := t.saved.isSome
             my_vote := t.my_vote }

/-- The configuration fields of `CommentQueryBuilder` (src lines 409-424).
The boxed query is represented by the `user_id_join` baked into its
viewer-scoped left joins. -/
structure CommentQueryBuilder where
  user_id_join : Int
  listing_type : ListingType
  sort : SortType
  for_community_id : Option Int
  for_community_name : Option String
  for_post_id : Option Int
  for_creator_id : Option Int
  for_recipient_id : Option Int
  search_term : Option String
  saved_only : Bool
  unread_only : Bool
  page : Option Int
  limit : Option Int
deriving DecidableEq, Repr

/-- `CommentQueryBuilder::create` (src lines 427-498). -/
def CommentQueryBuilder.create (my_user_id : Option Int) : CommentQueryBuilder :=
  -- The left join below will return None in this case
  let user_id_join := my_user_id.getD (-1)
  { user_id_join := user_id_join
    listing_type := ListingType.All
    sort := SortType.New
    for_community_id := none
    for_community_name := none
    for_post_id := none
    for_creator_id := none
    for_recipient_id := none
    search_term := none
    saved_only := false
    unread_only := false
    page := none
    limit := none }

namespace CommentQueryBuilder

/-! The chainable setters (src lines 500-558).  Each source setter takes a
`MaybeOptional` argument and stores `arg.get_optional()`; the embedding takes
the resulting `Option` directly.  They are prefixed with `set_` because the
source names collide with the field projections in Lean. -/

/-- `CommentQueryBuilder::listing_type` (src lines 500-503). -/
def set_listing_type (self : CommentQueryBuilder) (listing_type : ListingType) :
    CommentQueryBuilder :=
  { self with listing_type := listing_type }

/-- `CommentQueryBuilder::sort` (src lines 505-508). -/
def set_sort (self : CommentQueryBuilder) (sort : SortType) : CommentQueryBuilder :=
  { self with sort := sort }

/-- `CommentQueryBuilder::for_post_id` (src lines 510-513). -/
def set_for_post_id (self : CommentQueryBuilder) (for_post_id : Option Int) :
    CommentQueryBuilder :=
  { self with for_post_id := for_post_id }

/-- `CommentQueryBuilder::for_creator_id` (src lines 515-518). -/
def set_for_creator_id (self : CommentQueryBuilder) (for_creator_id : Option Int) :
    CommentQueryBuilder :=
  { self with for_creator_id := for_creator_id }

/-- `CommentQueryBuilder::for_recipient_id` (src lines 520-523).  The source
body is `self.for_creator_id = for_recipient_id.get_optional()`: it writes
the `for_creator_id` field, not `for_recipient_id`. -/
def set_for_recipient_id (self : CommentQueryBuilder) (for_recipient_id : Option Int) :
    CommentQueryBuilder :=
  { self with for_creator_id := for_recipient_id }

/-- `CommentQueryBuilder::for_community_id` (src lines 525-528). -/
def set_for_community_id (self : CommentQueryBuilder) (for_community_id : Option Int) :
    CommentQueryBuilder :=
  { self with for_community_id := for_community_id }

/-- `CommentQueryBuilder::for_community_name` (src lines 530-533). -/
def set_for_community_name (self : CommentQueryBuilder)
    (for_community_name : Option String) : CommentQueryBuilder :=
  { self with for_community_name := for_community_name }

/-- `CommentQueryBuilder::search_term` (src lines 535-538). -/
def set_search_term (self : CommentQueryBuilder) (search_term : Option String) :
    CommentQueryBuilder :=
  { self with search_term := search_term }

/-- `CommentQueryBuilder::saved_only` (src lines 540-543). -/
def set_saved_only (self : CommentQueryBuilder) (saved_only : Bool) :
    CommentQueryBuilder :=
  { self with saved_only := saved_only }

/-- `CommentQueryBuilder::unread_only` (src lines 545-548). -/
def set_unread_only (self : CommentQueryBuilder) (unread_only : Bool) :
    CommentQueryBuilder :=
  { self with unread_only := unread_only }

/-- `CommentQueryBuilder::page` (src lines 550-553). -/
def set_page (self : CommentQueryBuilder) (page : Option Int) : CommentQueryBuilder :=
  { self with page := page }

/-- `CommentQueryBuilder::limit` (src lines 555-558). -/
def set_limit (self : CommentQueryBuilder) (limit : Option Int) : CommentQueryBuilder :=
  { self with limit := limit }

end CommentQueryBuilder

/-- `if let Some(x) = o { query.filter(p(x)) }` — the conditional filter
pattern used for every optional criterion in `list` (src lines 566-598). -/
def opt_filter {α : Type} (o : Option α) (p : α → CommentViewTuple → Bool)
    (l : List CommentViewTuple) : List CommentViewTuple :=
  match o with
  | some x => l.filter (p x)
  | none => l

/-- `if b { query.filter(p) }` — the boolean-guarded filter pattern used for
`unread_only` (src lines 574-576) and `saved_only` (src lines 607-609). -/
def bool_filter (b : Bool) (p : CommentViewTuple → Bool)
    (l : List CommentViewTuple) : List CommentViewTuple :=
  if b then l.filter p else l

/-- The listing-scope match of `list` (src lines 600-605): `Subscribed`
keeps rows whose left-joined follower segment is present
(`community_follower::user_id.is_not_null()`), `Local` keeps rows whose
community is local, anything else leaves the query unchanged. -/
def applyListingType (lt : ListingType) (l : List CommentViewTuple) :
    List CommentViewTuple :=
  match lt with
  | ListingType.Subscribed => l.filter (fun t => t.subscribed.isSome)
  | ListingType.Local => l.filter (fun t => t.community.is_local == true)
  | ListingType.All => l

/-- `ORDER BY score DESC` — the comparison used by the `TopAll` and
`TopYear/TopMonth/TopWeek/TopDay` arms (src lines 616-628). -/
def topOrder (a b : CommentViewTuple) : Prop :=
  b.counts.score ≤ a.counts.score

/-- `ORDER BY published DESC` — the comparison used by the `New` arm
(src line 615). -/
def newOrder (a b : CommentViewTuple) : Prop :=
  b.comment.published ≤ a.comment.published

/-- `ORDER BY hot_rank(score, published) DESC, published DESC` — the
comparison used by the `Hot` and `Active` arms (src lines 612-614).
`env.hot_rank` is the storage-side SQL function. -/
def hotOrder (env : StorageEnv) (a b : CommentViewTuple) : Prop :=
  env.hot_rank b.counts.score b.comment.published
      < env.hot_rank a.counts.score a.comment.published
    ∨ (env.hot_rank a.counts.score a.comment.published
          = env.hot_rank b.counts.score b.comment.published
        ∧ b.comment.published ≤ a.comment.published)

instance : DecidableRel topOrder := fun _ _ =>
  inferInstanceAs (Decidable (_ ≤ _))

instance : DecidableRel newOrder := fun _ _ =>
  inferInstanceAs (Decidable (_ ≤ _))

instance (env : StorageEnv) : DecidableRel (hotOrder env) := fun _ _ =>
  inferInstanceAs (Decidable (_ ∨ _))

instance : IsTotal CommentViewTuple topOrder :=
  ⟨fun a b => le_total b.counts.score a.counts.score⟩

instance : IsTrans CommentViewTuple topOrder :=
  ⟨fun _ _ _ hab hbc => le_trans hbc hab⟩

instance : IsTotal CommentViewTuple newOrder :=
  ⟨fun a b => le_total b.comment.published a.comment.published⟩

instance : IsTrans CommentViewTuple newOrder :=
  ⟨fun _ _ _ hab hbc => le_trans hbc hab⟩

instance (env : StorageEnv) : IsTotal CommentViewTuple (hotOrder env) := by
  constructor
  intro a b
  rcases lt_trichotomy (env.hot_rank a.counts.score a.comment.published)
      (env.hot_rank b.counts.score b.comment.published) with h | h | h
  · exact Or.inr (Or.inl h)
  · rcases le_total b.comment.published a.comment.published with hp | hp
    · exact Or.inl (Or.inr ⟨h, hp⟩)
    · exact Or.inr (Or.inr ⟨h.symm, hp⟩)
  · exact Or.inl (Or.inl h)

instance (env : StorageEnv) : IsTrans CommentViewTuple (hotOrder env) := by
  constructor
  intro a b c hab hbc
  rcases hab with hab | ⟨hab, hab'⟩
  · rcases hbc with hbc | ⟨hbc, _⟩
    · exact Or.inl (hbc.trans hab)
    · exact Or.inl (hbc ▸ hab)
  · rcases hbc with hbc | ⟨hbc, hbc'⟩
    · exact Or.inl (hab ▸ hbc)
    · exact Or.inr ⟨hab.trans hbc, hbc'.trans hab'⟩

/-- The sort match of `list` (src lines 611-629): `Hot` and `Active` share
one arm (hot rank descending, then published descending); `New` is published
descending; `TopAll` is score descending; the four windowed `Top*` arms
first filter `published > now - interval` and then order by score
descending. -/
def applySortAndTime (env : StorageEnv) (sort : SortType)
    (l : List CommentViewTuple) : List CommentViewTuple :=
  match sort with
  | SortType.Hot | SortType.Active => l.insertionSort (hotOrder env)
  | SortType.New => l.insertionSort newOrder
  | SortType.TopAll => l.insertionSort topOrder
  | SortType.TopYear =>
      (l.filter (fun t => env.now - env.one_year < t.comment.published)).insertionSort topOrder
  | SortType.TopMonth =>
      (l.filter (fun t => env.now - env.one_month < t.comment.published)).insertionSort topOrder
  | SortType.TopWeek =>
      (l.filter (fun t => env.now - env.one_week < t.comment.published)).insertionSort topOrder
  | SortType.TopDay =>
      (l.filter (fun t => env.now - env.one_day < t.comment.published)).insertionSort topOrder

/-- The filter pipeline of `list` before sorting (src lines 563-609), in
source order: the joined rows, then the recipient filter (recipient id
matches, comment not deleted, not removed), `unread_only`, the creator,
community-id, community-name (plus `comment.local`), post-id and search-term
filters, the listing scope, and `saved_only`. -/
def CommentQueryBuilder.filtered_tuples (self : CommentQueryBuilder)
    (env : StorageEnv) (db : Database) : List CommentViewTuple :=
  let query := db.comments.filterMap (joinCommentRow db self.user_id_join)
  let query := opt_filter self.for_recipient_id
    (fun r t => t.recipient.any (fun u => u.id == r)
      && t.comment.deleted == false && t.comment.removed == false) query
  let query := bool_filter self.unread_only (fun t => t.comment.read == false) query
  let query := opt_filter self.for_creator_id
    (fun cid t => t.comment.creator_id == cid) query
  let query := opt_filter self.for_community_id
    (fun cid t => t.post.community_id == cid) query
  let query := opt_filter self.for_community_name
    (fun nm t => t.community.name == nm && t.comment.is_local == true) query
  let query := opt_filter self.for_post_id
    (fun pid t => t.comment.post_id == pid) query
  let query := opt_filter self.search_term
    (fun s t => env.ilike t.comment.content (env.fuzzy_search s)) query
  let query := applyListingType self.listing_type query
  bool_filter self.saved_only (fun t => t.saved.isSome) query

/-- `CommentQueryBuilder::list` (src lines 560-640): filters, listing scope,
`saved_only`, sort, then `limit`/`offset` from `limit_and_offset(page,
limit)` (SQL applies the offset before the limit), decoded by
`CommentView::to_vec`. -/
def CommentQueryBuilder.list (self : CommentQueryBuilder) (env : StorageEnv)
    (db : Database) : List CommentView :=
  let query := applySortAndTime env self.sort (self.filtered_tuples env db)
  let lo := env.limit_and_offset self.page self.limit
  CommentView.to_vec ((query.drop lo.2.toNat).take lo.1.toNat)

/-- The storage-execution error of diesel's `load`/`first`, propagated by
`?` in `list` (src line 637). -/
inductive DbError where
  | notFound : DbError
  | executionError : String → DbError
deriving DecidableEq, Repr

/-- `list` as invoked against the storage layer: the `load(...)?` call
either fails — and `list` propagates that failure unchanged — or yields the
underlying data, in which case the compiled query is evaluated and the
decoded views are returned with `Ok` (src lines 634-639). -/
def CommentQueryBuilder.list_from_storage (self : CommentQueryBuilder)
    (env : StorageEnv) (storage : Except DbError Database) :
    Except DbError (List CommentView) :=
  match storage with
  | Except.error e => Except.error e
  | Except.ok db => Except.ok (self.list env db)

/-- Modelled from the spec: the storage-side `hot_rank` SQL function is
defined in a database migration that is not part of this source file; per
the spec it computes `log(max(|score|,1)) * sign(score) / (age_hours +
2)^gravity` with `gravity` a fixed tunable constant. -/
noncomputable def hot_rank_spec (gravity : ℝ) (score : ℤ) (age_hours : ℝ) : ℝ :=
  Real.log (max |(score : ℝ)| 1)
    * (if 0 < score then (1 : ℝ) else if score < 0 then -1 else 0)
    / (age_hours + 2) ^ gravity

/-- Sanity predicate on the stored data: every viewer-keyed row references a
nonnegative user id (real user identifiers are nonnegative; `-1` is the
sentinel for "no viewer"). -/
def Database.wf_user_ids (db : Database) : Prop :=
  (∀ f ∈ db.community_followers, 0 ≤ f.user_id)
    ∧ (∀ s ∈ db.comment_saveds, 0 ≤ s.user_id)
    ∧ (∀ l ∈ db.comment_likes, 0 ≤ l.user_id)

instance (db : Database) : Decidable db.wf_user_ids :=
  inferInstanceAs (Decidable (_ ∧ _ ∧ _))

/-- Views sorted by aggregate score descending. -/
def sortedByScore (l : List CommentView) : Prop :=
  l.Pairwise (fun a b => b.counts.score ≤ a.counts.score)

/-! ### Helper lemmas -/

theorem mem_of_opt_filter {α : Type} {o : Option α} {p : α → CommentViewTuple → Bool}
    {l : List CommentViewTuple} {t : CommentViewTuple}
    (h : t ∈ opt_filter o p l) : t ∈ l := by
  cases o with
  | none => exact h
  | some x => exact List.mem_of_mem_filter h

theorem mem_of_bool_filter {b : Bool} {p : CommentViewTuple → Bool}
    {l : List CommentViewTuple} {t : CommentViewTuple}
    (h : t ∈ bool_filter b p l) : t ∈ l := by
  cases b with
  | false => exact h
  | true => exact List.mem_of_mem_filter h

theorem mem_of_applyListingType {lt : ListingType} {l : List CommentViewTuple}
    {t : CommentViewTuple} (h : t ∈ applyListingType lt l) : t ∈ l := by
  cases lt with
  | All => exact h
  | Local => exact List.mem_of_mem_filter h
  | Subscribed => exact List.mem_of_mem_filter h

theorem subscribed_isSome_of_mem_subscribed_scope {l : List CommentViewTuple}
    {t : CommentViewTuple} (h : t ∈ applyListingType ListingType.Subscribed l) :
    t.subscribed.isSome := by
  simpa using List.of_mem_filter h

theorem mem_of_mem_applySortAndTime {env : StorageEnv} {s : SortType}
    {l : List CommentViewTuple} {t : CommentViewTuple}
    (h : t ∈ applySortAndTime env s l) : t ∈ l := by
  cases s <;>
    simp only [applySortAndTime, List.mem_insertionSort, List.mem_filter] at h <;>
    tauto

/-- Every row surviving the filter pipeline comes from the fixed join. -/
theorem mem_filtered_tuples_joined {b : CommentQueryBuilder} {env : StorageEnv}
    {db : Database} {t : CommentViewTuple} (h : t ∈ b.filtered_tuples env db) :
    ∃ c, c ∈ db.comments ∧ joinCommentRow db b.user_id_join c = some t := by
  unfold CommentQueryBuilder.filtered_tuples at h
  have h1 := mem_of_bool_filter h
  have h2 := mem_of_applyListingType h1
  have h3 := mem_of_opt_filter h2
  have h4 := mem_of_opt_filter h3
  have h5 := mem_of_opt_filter h4
  have h6 := mem_of_opt_filter h5
  have h7 := mem_of_opt_filter h6
  have h8 := mem_of_bool_filter h7
  have h9 := mem_of_opt_filter h8
  exact List.mem_filterMap.mp h9

/-- Under the `Subscribed` scope every surviving row has a present follower
segment (the `saved_only` stage is the only one after the scope filter). -/
theorem filtered_tuples_subscribed {b : CommentQueryBuilder} {env : StorageEnv}
    {db : Database} {t : CommentViewTuple}
    (hlt : b.listing_type = ListingType.Subscribed)
    (h : t ∈ b.filtered_tuples env db) : t.subscribed.isSome := by
  unfold CommentQueryBuilder.filtered_tuples at h
  rw [hlt] at h
  exact subscribed_isSome_of_mem_subscribed_scope (mem_of_bool_filter h)

/-- Every output view of `list` decodes a row the sort stage produced. -/
theorem mem_list_elim {b : CommentQueryBuilder} {env : StorageEnv}
    {db : Database} {v : CommentView} (h : v ∈ b.list env db) :
    ∃ t, t ∈ applySortAndTime env b.sort (b.filtered_tuples env db)
      ∧ view_of_tuple t = v := by
  unfold CommentQueryBuilder.list CommentView.to_vec at h
  obtain ⟨t, ht, hv⟩ := List.mem_map.mp h
  refine ⟨t, ?_, hv⟩
  exact ((List.take_sublist _ _).trans (List.drop_sublist _ _)).mem ht

/-- Characterization of the fixed join on one comment row. -/
theorem joinCommentRow_eq_some_iff {db : Database} {uid : Int} {c : Comment}
    {t : CommentViewTuple} : joinCommentRow db uid c = some t ↔
    (db.users.find? (fun u => u.id == c.creator_id) = some t.creator
      ∧ db.posts.find? (fun p => p.id == c.post_id) = some t.post
      ∧ db.communities.find? (fun cm => cm.id == t.post.community_id) = some t.community
      ∧ db.comment_aggregates.find? (fun ca => ca.comment_id == c.id) = some t.counts
      ∧ t.comment = c
      ∧ t.parent_comment
          = c.parent_id.bind (fun pid => db.comments.find? (fun p2 => p2.id == pid))
      ∧ t.recipient
          = t.parent_comment.bind (fun p2 => db.users.find? (fun u => u.id == p2.creator_id))
      ∧ t.creator_banned_from_community
          = db.community_user_bans.find?
              (fun bn => bn.community_id == t.community.id && bn.user_id == c.creator_id)
      ∧ t.subscribed
          = db.community_followers.find?
              (fun f => f.community_id == t.post.community_id && f.user_id == uid)
      ∧ t.saved
          = db.comment_saveds.find?
              (fun s => s.comment_id == c.id && s.user_id == uid)
      ∧ t.my_vote
          = (db.comment_likes.find?
              (fun l2 => l2.comment_id == c.id && l2.user_id == uid)).map
              (fun l2 => l2.score)) := by
  constructor
  · intro h
    unfold joinCommentRow at h
    split at h
    · exact absurd h (by simp)
    next creator hcr =>
      split at h
      · exact absurd h (by simp)
      next post hpost =>
        split at h
        · exact absurd h (by simp)
        next community hcom =>
          split at h
          · exact absurd h (by simp)
          next counts hcnt =>
            simp only [Option.some.injEq] at h
            subst h
            exact ⟨hcr, hpost, hcom, hcnt, rfl, rfl, rfl, rfl, rfl, rfl, rfl⟩
  · rintro ⟨hcr, hpost, hcom, hcnt, hc, hpar, hrec, hban, hsub, hsav, hvote⟩
    cases t
    subst hc
    simp_all only [joinCommentRow]

/-- The author-ban segment of the join does not depend on the effective
viewer id. -/
theorem joinCommentRow_ban_viewer_independent {db : Database} {uid₁ uid₂ : Int}
    {c : Comment} {t₁ t₂ : CommentViewTuple}
    (h₁ : joinCommentRow db uid₁ c = some t₁)
    (h₂ : joinCommentRow db uid₂ c = some t₂) :
    t₁.creator_banned_from_community = t₂.creator_banned_from_community := by
  obtain ⟨_, hpost₁, hcom₁, _, _, _, _, hban₁, _, _, _⟩ :=
    joinCommentRow_eq_some_iff.mp h₁
  obtain ⟨_, hpost₂, hcom₂, _, _, _, _, hban₂, _, _, _⟩ :=
    joinCommentRow_eq_some_iff.mp h₂
  have hp : t₁.post = t₂.post := by
    have := hpost₁.symm.trans hpost₂
    exact Option.some.inj this
  rw [hp] at hcom₁
  have hcm : t₁.community = t₂.community := by
    have := hcom₁.symm.trans hcom₂
    exact Option.some.inj this
  rw [hban₁, hban₂, hcm]

/-- With the sentinel viewer id `-1` and well-formed user ids, the three
viewer-scoped segments of the join are absent. -/
theorem joinCommentRow_sentinel {db : Database} {c : Comment}
    {t : CommentViewTuple} (hwf : db.wf_user_ids)
    (h : joinCommentRow db (-1) c = some t) :
    t.subscribed = none ∧ t.saved = none ∧ t.my_vote = none := by
  obtain ⟨hf, hs, hl⟩ := hwf
  obtain ⟨_, _, _, _, _, _, _, _, hsub, hsav, hvote⟩ :=
    joinCommentRow_eq_some_iff.mp h
  refine ⟨?_, ?_, ?_⟩
  · rw [hsub, List.find?_eq_none]
    intro f hfm
    have := hf f hfm
    simp only [Bool.and_eq_true, beq_iff_eq]
    rintro ⟨-, h2⟩
    omega
  · rw [hsav, List.find?_eq_none]
    intro s hsm
    have := hs s hsm
    simp only [Bool.and_eq_true, beq_iff_eq]
    rintro ⟨-, h2⟩
    omega
  · rw [hvote]
    rw [List.find?_eq_none.mpr]
    · rfl
    intro l2 hlm
    have := hl l2 hlm
    simp only [Bool.and_eq_true, beq_iff_eq]
    rintro ⟨-, h2⟩
    omega

/-- Sortedness transported through pagination and decoding. -/
theorem pairwise_paginate_to_vec {r : CommentViewTuple → CommentViewTuple → Prop}
    {R : CommentView → CommentView → Prop}
    (himp : ∀ a b, r a b → R (view_of_tuple a) (view_of_tuple b))
    {l : List CommentViewTuple} (h : l.Pairwise r) (n m : Nat) :
    (CommentView.to_vec ((l.drop n).take m)).Pairwise R := by
  unfold CommentView.to_vec
  rw [List.pairwise_map]
  exact (h.sublist ((List.take_sublist _ _).trans (List.drop_sublist _ _))).imp
    (fun hab => himp _ _ hab)

/-- Membership in a windowed `Top*` sort arm. -/
theorem mem_sort_filter_iff {r : CommentViewTuple → CommentViewTuple → Prop}
    [DecidableRel r] {p : CommentViewTuple → Bool} {l : List CommentViewTuple}
    {t : CommentViewTuple} :
    t ∈ (l.filter p).insertionSort r ↔ (t ∈ l ∧ p t) := by
  rw [List.mem_insertionSort, List.mem_filter]

theorem applySortAndTime_nil (env : StorageEnv) (s : SortType) :
    applySortAndTime env s [] = [] := by
  cases s <;> rfl

/-- Sortedness of the sort stage carries over to the decoded `list` output. -/
theorem list_sorted_of_sort_pairwise {r : CommentViewTuple → CommentViewTuple → Prop}
    {R : CommentView → CommentView → Prop}
    (himp : ∀ a b, r a b → R (view_of_tuple a) (view_of_tuple b))
    {b : CommentQueryBuilder} {env : StorageEnv} {db : Database}
    (h : (applySortAndTime env b.sort (b.filtered_tuples env db)).Pairwise r) :
    (b.list env db).Pairwise R := by
  simp only [CommentQueryBuilder.list]
  exact pairwise_paginate_to_vec himp h _ _

/-- A view of a windowed `Top*` query decodes a row inside the window. -/
theorem list_mem_window {b : CommentQueryBuilder} {env : StorageEnv}
    {db : Database} {v : CommentView} {p : CommentViewTuple → Bool}
    (hmem : v ∈ b.list env db)
    (h : applySortAndTime env b.sort (b.filtered_tuples env db)
        = ((b.filtered_tuples env db).filter p).insertionSort topOrder) :
    ∃ t, view_of_tuple t = v ∧ p t := by
  obtain ⟨t, ht, hv⟩ := mem_list_elim hmem
  rw [h] at ht
  exact ⟨t, hv, (mem_sort_filter_iff.mp ht).2⟩

/-! ### Concrete example data for counterexamples and witnesses -/

/-- A concrete storage environment for evaluating witnesses. -/
def exEnv : StorageEnv :=
  { now := 1000
    one_year := 365
    one_month := 30
    one_week := 7
    one_day := 1
    hot_rank := fun s _ => (s : ℚ)
    ilike := fun content pat => content == pat
    fuzzy_search := fun s => s
    limit_and_offset := fun page limit =>
      (limit.getD 10, (page.getD 1 - 1) * limit.getD 10) }

def exComment : Comment :=
  { id := 1, creator_id := 7, post_id := 1, parent_id := none, content := ""
    removed := false, read := false, published := 1000, updated := none
    deleted := false, ap_id := "", is_local := true }

def exUser : UserSafe :=
  { id := 7, name := "", preferred_username := none, avatar := none
    admin := false, banned := false, published := 0, updated := none
    matrix_user_id := none, actor_id := "", bio := none, is_local := true
    banner := none, deleted := false }

def exPost : Post :=
  { id := 1, name := "", url := none, body := none, creator_id := 7
    community_id := 1, removed := false, locked := false, published := 0
    updated := none, deleted := false, nsfw := false, stickied := false
    embed_title := none, embed_description := none, embed_html := none
    thumbnail_url := none, ap_id := "", is_local := true }

def exCommunity : CommunitySafe :=
  { id := 1, name := "", title := "", description := none, category_id := 1
    creator_id := 7, removed := false, published := 0, updated := none
    deleted := false, nsfw := false, actor_id := "", is_local := true
    icon := none, banner := none }

def exCounts : CommentAggregates :=
  { id := 1, comment_id := 1, score := 3, upvotes := 3, downvotes := 0 }

/-- One comment (id 1, author 7, post 1, community 1, no parent) and nothing
viewer-scoped. -/
def exDb : Database :=
  { comments := [exComment], users := [exUser], posts := [exPost]
    communities := [exCommunity], comment_aggregates := [exCounts]
    community_user_bans := [], community_followers := [], comment_saveds := []
    comment_likes := [] }

/-- A database with every table empty. -/
def emptyDb : Database :=
  { comments := [], users := [], posts := [], communities := []
    comment_aggregates := [], community_user_bans := []
    community_followers := [], comment_saveds := [], comment_likes := [] }

/-- `exDb` plus a ban row for the comment's author in its community. -/
def c2db : Database :=
  { exDb with community_user_bans := [{ id := 1, community_id := 1, user_id := 7, published := 0 }] }

/-- The view `CommentView::read(c2db, 1, None)` produces. -/
def c2view : CommentView :=
  { comment := exComment, creator := exUser, recipient := none, post := exPost
    community := exCommunity, counts := exCounts
    creator_banned_from_community := true, subscribed := false, saved := false
    my_vote := none }

/-- `exDb` plus a subscription row of viewer 5 to community 1. -/
def c4db : Database :=
  { exDb with community_followers := [{ id := 1, community_id := 1, user_id := 5, published := 0, pending := none }] }

/-- A builder for viewer 5 restricted to the `Subscribed` scope. -/
def c4b : CommentQueryBuilder :=
  (CommentQueryBuilder.create (some 5)).set_listing_type ListingType.Subscribed

/-- The view the `Subscribed` query of viewer 5 returns on `c4db`. -/
def c4view : CommentView :=
  { comment := exComment, creator := exUser, recipient := none, post := exPost
    community := exCommunity, counts := exCounts
    creator_banned_from_community := false, subscribed := true, saved := false
    my_vote := none }

/-- A row tuple with all optional segments absent except the vote. -/
def exTuple : CommentViewTuple :=
  { comment := exComment, creator := exUser, parent_comment := none
    recipient := none, post := exPost, community := exCommunity
    counts := exCounts, creator_banned_from_community := none
    subscribed := none, saved := none, my_vote := some 1 }

/-! ### Claim theorems -/

/-- C1: evaluation of the code at the failing input.  The claim states that
`for_recipient_id` stores its argument in the builder's `for_recipient_id`
field and does not modify `for_creator_id`; the source setter
(src lines 520-523) instead writes `for_creator_id` and leaves
`for_recipient_id` untouched, so after calling it on a fresh builder the
fields come out swapped. -/
theorem C1_for_recipient_id_writes_for_creator_id :
    ((CommentQueryBuilder.create none).set_for_recipient_id (some 7)).for_creator_id = some 7
      ∧ ((CommentQueryBuilder.create none).set_for_recipient_id (some 7)).for_recipient_id = none
      ∧ (CommentQueryBuilder.create none).for_creator_id = none :=
  ⟨rfl, rfl, rfl⟩

/-- C3: evaluation of the code at the failing input.  With
`for_recipient_id(7)` requested, `list()` should return only comments whose
resolved recipient (parent's author) is user 7, excluding deleted/removed
comments; because the setter stored 7 into `for_creator_id`, the query
instead returns the parentless comment 1 authored by user 7 (its recipient
is `None`), applying the creator filter rather than the recipient filter. -/
theorem C3_recipient_query_filters_by_creator :
    (((CommentQueryBuilder.create none).set_for_recipient_id (some 7)).list exEnv exDb).map
        (fun v => (v.comment.id, v.recipient))
      = [(1, (none : Option UserSafeAlias1))] := rfl

/-- C2 counterexample: a query with no viewer id can return a view with
`creator_banned_from_community = true`.  The ban left join (src lines
92-98) is keyed on the community and the comment's author, not on the
effective viewer id, so the author's ban row matches even with no viewer. -/
theorem C2_counterexample_banned_author_without_viewer :
    (CommentView.read c2db 1 none).map CommentView.creator_banned_from_community
      = some true := rfl

/-- C2 (amended): with no viewer id (sentinel `-1`) and all stored
viewer-keyed rows referencing nonnegative user ids, every returned view has
`subscribed = false`, `saved = false` and `my_vote = none`, for single
lookups and for `list()` alike; `creator_banned_from_community` is
independent of the supplied viewer id. -/
theorem C2_no_viewer_scoped_facts :
    ∀ db : Database, db.wf_user_ids →
      (∀ (cid : Int) (v : CommentView), CommentView.read db cid none = some v →
        v.subscribed = false ∧ v.saved = false ∧ v.my_vote = none)
      ∧ (∀ (b : CommentQueryBuilder), b.user_id_join = -1 →
          ∀ (env : StorageEnv) (v : CommentView), v ∈ b.list env db →
            v.subscribed = false ∧ v.saved = false ∧ v.my_vote = none)
      ∧ (∀ (cid : Int) (uid₁ uid₂ : Option Int) (v₁ v₂ : CommentView),
          CommentView.read db cid uid₁ = some v₁ →
          CommentView.read db cid uid₂ = some v₂ →
          v₁.creator_banned_from_community = v₂.creator_banned_from_community) := by
  intro db hwf
  refine ⟨?_, ?_, ?_⟩
  · intro cid v h
    simp only [CommentView.read] at h
    split at h
    · exact absurd h (by simp)
    next c hc =>
      split at h
      · exact absurd h (by simp)
      next t ht =>
        obtain ⟨hsub, hsav, hvote⟩ := joinCommentRow_sentinel hwf ht
        simp only [Option.some.injEq] at h
        subst h
        simp [hsub, hsav, hvote]
  · intro b hb env v hv
    obtain ⟨t, ht, htv⟩ := mem_list_elim hv
    obtain ⟨c, -, hj⟩ := mem_filtered_tuples_joined (mem_of_mem_applySortAndTime ht)
    rw [hb] at hj
    obtain ⟨hsub, hsav, hvote⟩ := joinCommentRow_sentinel hwf hj
    subst htv
    simp [view_of_tuple, hsub, hsav, hvote]
  · intro cid uid₁ uid₂ v₁ v₂ h₁ h₂
    simp only [CommentView.read] at h₁ h₂
    split at h₁
    · exact absurd h₁ (by simp)
    next c₁ hc₁ =>
      split at h₂
      · exact absurd h₂ (by simp)
      next c₂ hc₂ =>
        have hcc : c₁ = c₂ := Option.some.inj (hc₁.symm.trans hc₂)
        subst hcc
        split at h₁
        · exact absurd h₁ (by simp)
        next t₁ ht₁ =>
          split at h₂
          · exact absurd h₂ (by simp)
          next t₂ ht₂ =>
            have hban := joinCommentRow_ban_viewer_independent ht₁ ht₂
            simp only [Option.some.injEq] at h₁ h₂
            subst h₁
            subst h₂
            simp [hban]

/-- Witness for C2: instantiated at `c2db` (which has a ban row for the
author of comment 1) and its concrete query outcome `c2view`. -/
theorem C2_no_viewer_scoped_facts_witness :
    c2view.subscribed = false ∧ c2view.saved = false ∧ c2view.my_vote = none :=
  (C2_no_viewer_scoped_facts c2db (by decide)).1 1 c2view rfl

/-- C4: under `listing_type = Subscribed` every returned view's community
has a follower row for the effective viewer id (the scope filter keeps
exactly the rows whose left-joined follower segment matched,
src line 602); with no viewer the effective id is the sentinel `-1`, which
matches no stored follower row, so the result is empty. -/
theorem C4_subscribed_scope :
    (∀ (env : StorageEnv) (db : Database) (b : CommentQueryBuilder) (v : CommentView),
        b.listing_type = ListingType.Subscribed → v ∈ b.list env db →
        ∃ f, f ∈ db.community_followers ∧ f.community_id = v.post.community_id
          ∧ f.user_id = b.user_id_join)
    ∧ (∀ (env : StorageEnv) (db : Database) (b : CommentQueryBuilder),
        b.listing_type = ListingType.Subscribed → b.user_id_join = -1 →
        db.wf_user_ids → b.list env db = []) := by
  constructor
  · intro env db b v hlt hv
    obtain ⟨t, ht, htv⟩ := mem_list_elim hv
    have htf := mem_of_mem_applySortAndTime ht
    have hsome := filtered_tuples_subscribed hlt htf
    obtain ⟨c, -, hj⟩ := mem_filtered_tuples_joined htf
    obtain ⟨-, -, -, -, -, -, -, -, hsub, -, -⟩ := joinCommentRow_eq_some_iff.mp hj
    obtain ⟨f, hf⟩ := Option.isSome_iff_exists.mp hsome
    rw [hsub] at hf
    have hfm := List.mem_of_find?_eq_some hf
    have hfp := List.find?_some hf
    simp only [Bool.and_eq_true, beq_iff_eq] at hfp
    refine ⟨f, hfm, ?_, hfp.2⟩
    subst htv
    exact hfp.1
  · intro env db b hlt hb hwf
    have hf : b.filtered_tuples env db = [] := by
      rw [List.eq_nil_iff_forall_not_mem]
      intro t ht
      have hsome := filtered_tuples_subscribed hlt ht
      obtain ⟨c, -, hj⟩ := mem_filtered_tuples_joined ht
      rw [hb] at hj
      have hnone := (joinCommentRow_sentinel hwf hj).1
      rw [hnone] at hsome
      exact absurd hsome (by simp)
    simp only [CommentQueryBuilder.list, hf, applySortAndTime_nil, List.drop_nil,
      List.take_nil]
    rfl

/-- Witness for C4: viewer 5 subscribed to community 1 sees comment 1; the
same query with no viewer returns nothing. -/
theorem C4_subscribed_scope_witness :
    (∃ f, f ∈ c4db.community_followers ∧ f.community_id = c4view.post.community_id
        ∧ f.user_id = c4b.user_id_join)
      ∧ ((CommentQueryBuilder.create none).set_listing_type ListingType.Subscribed).list
          exEnv c4db = [] :=
  ⟨C4_subscribed_scope.1 exEnv c4db c4b c4view rfl
      (by exact List.mem_singleton.mpr rfl),
    C4_subscribed_scope.2 exEnv c4db _ rfl rfl (by decide)⟩

/-- C5: the row decoder is pure and total — `to_vec` yields exactly one view
per input tuple, in which each of the three booleans is `true` iff the
corresponding optional segment is present, `my_vote` is passed through
unchanged, and every entity column is copied verbatim. -/
theorem C5_row_decoder_total :
    ∀ rows : List CommentViewTuple,
      (CommentView.to_vec rows).length = rows.length
      ∧ ∀ p ∈ rows.zip (CommentView.to_vec rows),
          (p.2.creator_banned_from_community = true
              ↔ p.1.creator_banned_from_community.isSome = true)
          ∧ (p.2.subscribed = true ↔ p.1.subscribed.isSome = true)
          ∧ (p.2.saved = true ↔ p.1.saved.isSome = true)
          ∧ p.2.my_vote = p.1.my_vote
          ∧ p.2.comment = p.1.comment ∧ p.2.creator = p.1.creator
          ∧ p.2.recipient = p.1.recipient ∧ p.2.post = p.1.post
          ∧ p.2.community = p.1.community ∧ p.2.counts = p.1.counts := by
  intro rows
  constructor
  · exact List.length_map _ _
  · have hz : rows.zip (CommentView.to_vec rows)
        = rows.map (fun a => (a, view_of_tuple a)) := by
      unfold CommentView.to_vec
      induction rows with
      | nil => rfl
      | cons a l ih => simp only [List.map_cons, List.zip_cons_cons, ih]
    rw [hz]
    intro p hp
    obtain ⟨a, -, hpa⟩ := List.mem_map.mp hp
    subst hpa
    exact ⟨Iff.rfl, Iff.rfl, Iff.rfl, rfl, rfl, rfl, rfl, rfl, rfl, rfl⟩

/-- Witness for C5: the single-row input `[exTuple]`. -/
theorem C5_row_decoder_total_witness :
    ((view_of_tuple exTuple).creator_banned_from_community = true
        ↔ exTuple.creator_banned_from_community.isSome = true)
      ∧ ((view_of_tuple exTuple).subscribed = true ↔ exTuple.subscribed.isSome = true)
      ∧ ((view_of_tuple exTuple).saved = true ↔ exTuple.saved.isSome = true)
      ∧ (view_of_tuple exTuple).my_vote = exTuple.my_vote
      ∧ (view_of_tuple exTuple).comment = exTuple.comment
      ∧ (view_of_tuple exTuple).creator = exTuple.creator
      ∧ (view_of_tuple exTuple).recipient = exTuple.recipient
      ∧ (view_of_tuple exTuple).post = exTuple.post
      ∧ (view_of_tuple exTuple).community = exTuple.community
      ∧ (view_of_tuple exTuple).counts = exTuple.counts :=
  (C5_row_decoder_total [exTuple]).2 (exTuple, view_of_tuple exTuple)
    (List.mem_singleton.mpr rfl)

/-- A view of a windowed `Top*` query lies inside the time window. -/
theorem list_window_views {b : CommentQueryBuilder} {env : StorageEnv}
    {db : Database} (cutoff : Int)
    (h : applySortAndTime env b.sort (b.filtered_tuples env db)
        = ((b.filtered_tuples env db).filter
            (fun t => cutoff < t.comment.published)).insertionSort topOrder) :
    ∀ v ∈ b.list env db, cutoff < v.comment.published := by
  intro v hv
  obtain ⟨t, htv, hp⟩ := list_mem_window hv h
  have hq := of_decide_eq_true hp
  subst htv
  exact hq

theorem list_sortedByScore {b : CommentQueryBuilder} {env : StorageEnv}
    {db : Database}
    (h : (applySortAndTime env b.sort (b.filtered_tuples env db)).Pairwise topOrder) :
    sortedByScore (b.list env db) :=
  list_sorted_of_sort_pairwise (fun _ _ hab => hab) h

/-- C6: each windowed `Top*` sort restricts `list()` to comments published
after `now` minus the corresponding interval and orders the result by
aggregate score descending; `TopAll` also orders by score descending but
applies no time restriction (its sort stage is a permutation of its input),
and the `TopDay` sort stage keeps exactly the in-window rows. -/
theorem C6_top_sorts :
    (∀ (env : StorageEnv) (b : CommentQueryBuilder) (db : Database),
      (b.sort = SortType.TopDay →
        (∀ v ∈ b.list env db, env.now - env.one_day < v.comment.published)
          ∧ sortedByScore (b.list env db))
      ∧ (b.sort = SortType.TopWeek →
        (∀ v ∈ b.list env db, env.now - env.one_week < v.comment.published)
          ∧ sortedByScore (b.list env db))
      ∧ (b.sort = SortType.TopMonth →
        (∀ v ∈ b.list env db, env.now - env.one_month < v.comment.published)
          ∧ sortedByScore (b.list env db))
      ∧ (b.sort = SortType.TopYear →
        (∀ v ∈ b.list env db, env.now - env.one_year < v.comment.published)
          ∧ sortedByScore (b.list env db))
      ∧ (b.sort = SortType.TopAll → sortedByScore (b.list env db)))
    ∧ (∀ (env : StorageEnv) (rows : List CommentViewTuple),
        List.Perm (applySortAndTime env SortType.TopAll rows) rows)
    ∧ (∀ (env : StorageEnv) (rows : List CommentViewTuple) (t : CommentViewTuple),
        t ∈ applySortAndTime env SortType.TopDay rows
          ↔ (t ∈ rows ∧ env.now - env.one_day < t.comment.published)) := by
  refine ⟨fun env b db => ⟨?_, ?_, ?_, ?_, ?_⟩, ?_, ?_⟩
  · intro hs
    exact ⟨list_window_views _ (by rw [hs]; rfl),
      list_sortedByScore (by rw [hs]; exact List.sorted_insertionSort topOrder _)⟩
  · intro hs
    exact ⟨list_window_views _ (by rw [hs]; rfl),
      list_sortedByScore (by rw [hs]; exact List.sorted_insertionSort topOrder _)⟩
  · intro hs
    exact ⟨list_window_views _ (by rw [hs]; rfl),
      list_sortedByScore (by rw [hs]; exact List.sorted_insertionSort topOrder _)⟩
  · intro hs
    exact ⟨list_window_views _ (by rw [hs]; rfl),
      list_sortedByScore (by rw [hs]; exact List.sorted_insertionSort topOrder _)⟩
  · intro hs
    exact list_sortedByScore (by rw [hs]; exact List.sorted_insertionSort topOrder _)
  · intro env rows
    exact List.perm_insertionSort topOrder rows
  · intro env rows t
    simp only [applySortAndTime, List.mem_insertionSort, List.mem_filter,
      decide_eq_true_eq]

/-- A builder sorted by `TopDay`, for the C6 witness. -/
def c6b : CommentQueryBuilder :=
  (CommentQueryBuilder.create none).set_sort SortType.TopDay

/-- Witness for C6: the `TopDay` query on `exDb` (comment published at
`now`) and the sort stage on the single tuple `exTuple`. -/
theorem C6_top_sorts_witness :
    ((∀ v ∈ c6b.list exEnv exDb, exEnv.now - exEnv.one_day < v.comment.published)
        ∧ sortedByScore (c6b.list exEnv exDb))
      ∧ (exTuple ∈ applySortAndTime exEnv SortType.TopDay [exTuple]
          ↔ (exTuple ∈ [exTuple]
              ∧ exEnv.now - exEnv.one_day < exTuple.comment.published)) :=
  ⟨(C6_top_sorts.1 exEnv c6b exDb).1 rfl, C6_top_sorts.2.2 exEnv [exTuple] exTuple⟩

/-- C7: `Hot` and `Active` share one sort arm; under either, `list()` is
ordered primarily by the storage-computed hot rank of (aggregate score,
publish timestamp) descending with ties broken by publish timestamp
descending; and the spec-modelled hot-rank formula is strictly decreasing in
age for positively scored content (score at least 2; for |score| <= 1 the
logarithm term makes the rank constantly 0). -/
theorem C7_hot_active_ranking :
    (∀ (env : StorageEnv) (rows : List CommentViewTuple),
        applySortAndTime env SortType.Hot rows = applySortAndTime env SortType.Active rows)
    ∧ (∀ (env : StorageEnv) (b : CommentQueryBuilder) (db : Database),
        b.sort = SortType.Hot ∨ b.sort = SortType.Active →
        (b.list env db).Pairwise (fun va vb =>
          env.hot_rank vb.counts.score vb.comment.published
              < env.hot_rank va.counts.score va.comment.published
            ∨ (env.hot_rank va.counts.score va.comment.published
                  = env.hot_rank vb.counts.score vb.comment.published
                ∧ vb.comment.published ≤ va.comment.published)))
    ∧ (∀ (gravity a₁ a₂ : ℝ) (score : ℤ), 0 < gravity → 2 ≤ score → 0 ≤ a₁ →
        a₁ < a₂ → hot_rank_spec gravity score a₂ < hot_rank_spec gravity score a₁) := by
  refine ⟨fun env rows => rfl, ?_, ?_⟩
  · intro env b db hb
    have h : (applySortAndTime env b.sort (b.filtered_tuples env db)).Pairwise
        (hotOrder env) := by
      rcases hb with hb | hb <;> rw [hb] <;>
        exact List.sorted_insertionSort (hotOrder env) _
    exact list_sorted_of_sort_pairwise (fun _ _ hab => hab) h
  · intro g a₁ a₂ s hg hs ha₁ hlt
    have hs0 : (0 : ℤ) < s := by omega
    have hs2 : (2 : ℝ) ≤ (s : ℝ) := by exact_mod_cast hs
    have hsr : (0 : ℝ) < (s : ℝ) := by linarith
    have hmax : (1 : ℝ) < max |(s : ℝ)| 1 := by
      rw [abs_of_pos hsr]
      exact lt_max_of_lt_left (by linarith)
    have hlog : 0 < Real.log (max |(s : ℝ)| 1) := Real.log_pos hmax
    have hd1 : (0 : ℝ) < (a₁ + 2) ^ g := Real.rpow_pos_of_pos (by linarith) _
    have hdlt : (a₁ + 2) ^ g < (a₂ + 2) ^ g :=
      Real.rpow_lt_rpow (by linarith) (by linarith) hg
    simp only [hot_rank_spec, if_pos hs0, mul_one]
    exact div_lt_div_of_pos_left hlog hd1 hdlt

/-- A builder sorted by `Hot`, for the C7 witness. -/
def c7b : CommentQueryBuilder :=
  (CommentQueryBuilder.create none).set_sort SortType.Hot

/-- Witness for C7: the shared sort arm on the singleton `[exTuple]`, the
ordering of a concrete `Hot` query, and the decay of the spec-modelled rank
between ages 0 and 1 at gravity 1 and score 2. -/
theorem C7_hot_active_ranking_witness :
    applySortAndTime exEnv SortType.Hot [exTuple]
        = applySortAndTime exEnv SortType.Active [exTuple]
      ∧ (c7b.list exEnv exDb).Pairwise (fun va vb =>
          exEnv.hot_rank vb.counts.score vb.comment.published
              < exEnv.hot_rank va.counts.score va.comment.published
            ∨ (exEnv.hot_rank va.counts.score va.comment.published
                  = exEnv.hot_rank vb.counts.score vb.comment.published
                ∧ vb.comment.published ≤ va.comment.published))
      ∧ hot_rank_spec 1 2 1 < hot_rank_spec 1 2 0 :=
  ⟨C7_hot_active_ranking.1 exEnv [exTuple],
    C7_hot_active_ranking.2.1 exEnv c7b exDb (Or.inl rfl),
    C7_hot_active_ranking.2.2 1 0 1 2 zero_lt_one le_rfl le_rfl zero_lt_one⟩

/-- C8: a freshly created builder defaults to scope `All` (which `list()`
leaves unrestricted), sort `New` (publish timestamp descending), all
optional filters unset, `saved_only` and `unread_only` false, and `page` and
`limit` unset. -/
theorem C8_create_defaults :
    ∀ (my_user_id : Option Int) (env : StorageEnv) (db : Database),
      (CommentQueryBuilder.create my_user_id).listing_type = ListingType.All
      ∧ (CommentQueryBuilder.create my_user_id).sort = SortType.New
      ∧ (CommentQueryBuilder.create my_user_id).for_community_id = none
      ∧ (CommentQueryBuilder.create my_user_id).for_community_name = none
      ∧ (CommentQueryBuilder.create my_user_id).for_post_id = none
      ∧ (CommentQueryBuilder.create my_user_id).for_creator_id = none
      ∧ (CommentQueryBuilder.create my_user_id).for_recipient_id = none
      ∧ (CommentQueryBuilder.create my_user_id).search_term = none
      ∧ (CommentQueryBuilder.create my_user_id).saved_only = false
      ∧ (CommentQueryBuilder.create my_user_id).unread_only = false
      ∧ (CommentQueryBuilder.create my_user_id).page = none
      ∧ (CommentQueryBuilder.create my_user_id).limit = none
      ∧ (∀ rows : List CommentViewTuple, applyListingType ListingType.All rows = rows)
      ∧ ((CommentQueryBuilder.create my_user_id).list env db).Pairwise
          (fun a b => b.comment.published ≤ a.comment.published) := by
  intro uid env db
  refine ⟨rfl, rfl, rfl, rfl, rfl, rfl, rfl, rfl, rfl, rfl, rfl, rfl,
    fun rows => rfl, ?_⟩
  exact list_sorted_of_sort_pairwise (fun _ _ hab => hab)
    (List.sorted_insertionSort newOrder _)

/-- C9: the setters are total pure record updates (they cannot fail);
`list()` propagates a storage-execution failure unchanged, and a successful
execution always yields `Ok` — in particular an empty result set comes back
as `Ok []`, not as an error. -/
theorem C9_list_error_propagation :
    (∀ (b : CommentQueryBuilder) (env : StorageEnv) (e : DbError),
        b.list_from_storage env (Except.error e) = Except.error e)
    ∧ (∀ (b : CommentQueryBuilder) (env : StorageEnv) (db : Database),
        ∃ vs, b.list_from_storage env (Except.ok db) = Except.ok vs)
    ∧ (∀ (b : CommentQueryBuilder) (env : StorageEnv) (db : Database),
        b.list env db = [] →
        b.list_from_storage env (Except.ok db) = Except.ok ([] : List CommentView)) := by
  refine ⟨fun b env e => rfl, fun b env db => ⟨b.list env db, rfl⟩,
    fun b env db h => ?_⟩
  simp only [CommentQueryBuilder.list_from_storage, h]

/-- Witness for C9: a concrete storage failure is propagated, and the empty
database yields `Ok []`. -/
theorem C9_list_error_propagation_witness :
    (CommentQueryBuilder.create none).list_from_storage exEnv
        (Except.error (DbError.executionError "")) = Except.error (DbError.executionError "")
      ∧ (CommentQueryBuilder.create none).list_from_storage exEnv (Except.ok emptyDb)
          = Except.ok ([] : List CommentView) :=
  ⟨C9_list_error_propagation.1 _ _ _, C9_list_error_propagation.2.2 _ _ _ rfl⟩

/-- C10: every successful `CommentView::read` decodes its joined row exactly
as `ViewToVec::to_vec` would decode the same tuple, so single-record lookup
and `list()` share one row-decoding semantics. -/
theorem C10_read_decodes_like_to_vec :
    ∀ (db : Database) (cid : Int) (uid : Option Int) (v : CommentView),
      CommentView.read db cid uid = some v →
      ∃ c t, db.comments.find? (fun c2 => c2.id == cid) = some c
        ∧ joinCommentRow db (uid.getD (-1)) c = some t
        ∧ CommentView.to_vec [t] = [v] := by
  intro db cid uid v h
  simp only [CommentView.read] at h
  split at h
  · exact absurd h (by simp)
  next c hc =>
    split at h
    · exact absurd h (by simp)
    next t ht =>
      simp only [Option.some.injEq] at h
      refine ⟨c, t, hc, ht, ?_⟩
      subst h
      rfl

/-- The view `CommentView::read(exDb, 1, Some(5))` produces. -/
def exView : CommentView :=
  { comment := exComment, creator := exUser, recipient := none, post := exPost
    community := exCommunity, counts := exCounts
    creator_banned_from_community := false, subscribed := false, saved := false
    my_vote := none }

/-- Witness for C10: the concrete lookup of comment 1 by viewer 5. -/
theorem C10_read_decodes_like_to_vec_witness :
    ∃ c t, exDb.comments.find? (fun c2 => c2.id == 1) = some c
      ∧ joinCommentRow exDb ((some 5 : Option Int).getD (-1)) c = some t
      ∧ CommentView.to_vec [t] = [exView] :=
  C10_read_decodes_like_to_vec exDb 1 (some 5) exView rfl
